import Mathlib

/-!
Verification of the AI trip planner's core logic: the LLM JSON-normalization
pipeline (`LLMHandler.generate_json_response`), the itinerary token-budget
computation (`LLMHandler.generate_itinerary`), the trip-length helper
(`calculate_days_between`), and the duplicate-trip reconciliation in
`ItineraryAgent` (`_check_duplicate_trip`, `generate_itinerary`).

Python strings are modelled as `List Char` (a Python `str` is a sequence of
code points).  Python `float` budget arithmetic is modelled over `ℚ` with the
literals `0.9` and `1.1` taken exactly as `9/10` and `11/10`; the concrete
budgets exercised below are far from representation boundaries, so the
rational model agrees with the source's float evaluation on them.
-/

set_option autoImplicit false

namespace TripPlanner

/-- Python whitespace for `str.strip()` (ASCII range; the model texts here
are ASCII). -/
def isPyWs (c : Char) : Bool :=
  [' ', '\t', '\n', '\r', Char.ofNat 11, Char.ofNat 12].contains c

/-- Python `str.strip()`: drop whitespace from both ends. -/
def pyStrip (t : List Char) : List Char :=
  ((t.dropWhile isPyWs).reverse.dropWhile isPyWs).reverse

/-- First occurrence of `sep` in `t` scanning left to right:
`some (p, q)` with `t = p ++ sep ++ q` and `p` shortest, else `none`. -/
def breakOn (sep : List Char) : List Char → Option (List Char × List Char)
  | [] => none
  | c :: cs =>
    if sep.isPrefixOf (c :: cs) then
      some ([], (c :: cs).drop sep.length)
    else
      match breakOn sep cs with
      | some (p, q) => some (c :: p, q)
      | none => none

/-- Python `sep in t` (substring containment). -/
def containsSub (t sep : List Char) : Bool :=
  (breakOn sep t).isSome

/-- Python `t.split(sep)` for non-empty `sep`, fuel-recursive so that it is
structural (the fuel `t.length + 1` always suffices). -/
def splitOnFuel (sep : List Char) : Nat → List Char → List (List Char)
  | 0, t => [t]
  | fuel + 1, t =>
    match breakOn sep t with
    | none => [t]
    | some (p, q) => p :: splitOnFuel sep fuel q

/-- Python `t.split(sep)` (for the non-empty separators used by the source). -/
def pySplit (sep t : List Char) : List (List Char) :=
  splitOnFuel sep (t.length + 1) t

/-- The tagged fence marker the source searches for first. -/
def fenceJson : List Char := ("```json".toList)

/-- The plain fence marker. -/
def fence : List Char := ("```".toList)

/-- JSON extraction step of `LLMHandler.generate_json_response`
(src/utils/llm_handler.py lines 104-110): take the content of the first
JSON-tagged fenced block, else of the first untagged fenced block, else the
whole text; then strip whitespace. -/
def extractJson (response : List Char) : List Char :=
  if containsSub response fenceJson then
    pyStrip ((pySplit fence ((pySplit fenceJson response).getD 1 [])).getD 0 [])
  else if containsSub response fence then
    pyStrip ((pySplit fence ((pySplit fence response).getD 1 [])).getD 0 [])
  else
    pyStrip response

/-- JSON insignificant whitespace (as accepted by Python's `json.loads`). -/
def isJsonWs (c : Char) : Bool :=
  [' ', '\t', '\n', '\r'].contains c

/-- Skip insignificant whitespace between JSON tokens. -/
def skipWsJ (t : List Char) : List Char :=
  t.dropWhile isJsonWs

/-- Parsed JSON values.  Numeric literals are modelled as integers, which
covers every numeral appearing in the texts reasoned about here; `json.loads`
additionally accepts float literals, which this model rejects. -/
inductive Json where
  | num (n : Int)
  | str (chars : List Char)
  | bool (b : Bool)
  | null
  | arr (items : List Json)
  | obj (pairs : List (List Char × Json))

/-- Value of a hex digit, if `c` is one. -/
def hexDigitVal (c : Char) : Option Nat :=
  let n := c.toNat
  if 48 ≤ n && n ≤ 57 then some (n - 48)
  else if 97 ≤ n && n ≤ 102 then some (n - 87)
  else if 65 ≤ n && n ≤ 70 then some (n - 55)
  else none

/-- Decoding of a two-character escape (backslash plus `e`), when `e` is one
of the eight simple escape letters of the JSON grammar. -/
def escChar (e : Char) : Option Char :=
  if e = 'n' then some '\n'
  else if e = 't' then some '\t'
  else if e = 'r' then some '\r'
  else if e = '"' then some '"'
  else if e = '\\' then some '\\'
  else if e = '/' then some '/'
  else if e = 'b' then some (Char.ofNat 8)
  else if e = 'f' then some (Char.ofNat 12)
  else none

/-- Combined value of four hex digits, when all four characters are hex. -/
def hex4Val (h1 h2 h3 h4 : Char) : Option Nat :=
  match hexDigitVal h1, hexDigitVal h2, hexDigitVal h3, hexDigitVal h4 with
  | some v1, some v2, some v3, some v4 =>
    some (((v1 * 16 + v2) * 16 + v3) * 16 + v4)
  | _, _, _, _ => none

/-- Body of a JSON string literal, after the opening quote: returns the
decoded characters and the remaining input after the closing quote.
Raw control characters are rejected (strict mode of `json.loads`). -/
def parseStringBody : List Char → Option (List Char × List Char)
  | [] => none
  | '"' :: r => some ([], r)
  | '\\' :: 'u' :: r =>
    match r with
    | h1 :: h2 :: h3 :: h4 :: r' =>
      match hex4Val h1 h2 h3 h4 with
      | some v => (parseStringBody r').map (fun p => (Char.ofNat v :: p.1, p.2))
      | none => none
    | _ => none
  | '\\' :: e :: r =>
    match escChar e with
    | some c => (parseStringBody r).map (fun p => (c :: p.1, p.2))
    | none => none
  | c :: r =>
    if c.toNat < 32 then none
    else (parseStringBody r).map (fun p => (c :: p.1, p.2))

/-- Value of a non-empty digit string. -/
def natOfDigits (ds : List Char) : Nat :=
  ds.foldl (fun n c => n * 10 + (c.toNat - '0'.toNat)) 0

/-- A JSON natural-number literal (no sign), rejecting leading zeros. -/
def parseNatNum (t : List Char) : Option (Nat × List Char) :=
  match t.takeWhile Char.isDigit with
  | [] => none
  | ['0'] => some (0, t.dropWhile Char.isDigit)
  | '0' :: _ :: _ => none
  | ds => some (natOfDigits ds, t.dropWhile Char.isDigit)

/-- Parsing mode: a single value, or the remaining items of an array or
object whose opening bracket has been consumed. -/
inductive PMode where
  | val
  | arrItems (acc : List Json)
  | objItems (acc : List (List Char × Json))

/-- Fuel-recursive recursive-descent JSON parser (the grammar accepted by
`json.loads`, restricted to integer numerals).  Returns the parsed value and
the unconsumed remainder. -/
def parseJ : Nat → PMode → List Char → Option (Json × List Char)
  | 0, _, _ => none
  | fuel + 1, .val, t =>
    match skipWsJ t with
    | [] => none
    | '\x7b' :: r =>
      match skipWsJ r with
      | '\x7d' :: r' => some (.obj [], r')
      | _ => parseJ fuel (.objItems []) r
    | '[' :: r =>
      match skipWsJ r with
      | ']' :: r' => some (.arr [], r')
      | _ => parseJ fuel (.arrItems []) r
    | '"' :: r => (parseStringBody r).map (fun p => (.str p.1, p.2))
    | 't' :: 'r' :: 'u' :: 'e' :: r => some (.bool true, r)
    | 'f' :: 'a' :: 'l' :: 's' :: 'e' :: r => some (.bool false, r)
    | 'n' :: 'u' :: 'l' :: 'l' :: r => some (.null, r)
    | '-' :: r => (parseNatNum r).map (fun p => (.num (-(p.1 : Int)), p.2))
    | c :: r =>
      if c.isDigit then (parseNatNum (c :: r)).map (fun p => (.num (p.1 : Int), p.2))
      else none
  | fuel + 1, .arrItems acc, t =>
    match parseJ fuel .val t with
    | none => none
    | some (v, r) =>
      match skipWsJ r with
      | ',' :: r' => parseJ fuel (.arrItems (acc ++ [v])) r'
      | ']' :: r' => some (.arr (acc ++ [v]), r')
      | _ => none
  | fuel + 1, .objItems acc, t =>
    match skipWsJ t with
    | '"' :: r =>
      match parseStringBody r with
      | none => none
      | some (k, r1) =>
        match skipWsJ r1 with
        | ':' :: r2 =>
          match parseJ fuel .val r2 with
          | none => none
          | some (v, r3) =>
            match skipWsJ r3 with
            | ',' :: r4 => parseJ fuel (.objItems (acc ++ [(k, v)])) r4
            | '\x7d' :: r4 => some (.obj (acc ++ [(k, v)]), r4)
            | _ => none
        | _ => none
    | _ => none

/-- Model of Python `json.loads`: parse one JSON value and require that only
whitespace follows; empty or unparseable input is a failure (`none`). -/
def Json.parse (t : List Char) : Option Json :=
  match parseJ (2 * t.length + 4) .val t with
  | some (v, r) => if (skipWsJ r).isEmpty then some v else none
  | none => none

example : Json.parse ("\x7b\"a\": 1\x7d".toList) = some (.obj [(("a".toList), .num 1)]) := by rfl

example : Json.parse ("\x7b\"a\": 1,\x7d".toList) = none := by rfl

example : Json.parse ("[1, -2, true, null, \"x\"]".toList) =
    some (.arr [.num 1, .num (-2), .bool true, .null, .str ("x".toList)]) := by rfl

example : Json.parse ("\x7b\"a\": \x7b\"b\": [1, 2]\x7d, \"c\": false\x7d".toList) =
    some (.obj [(("a".toList), .obj [(("b".toList), .arr [.num 1, .num 2])]),
                (("c".toList), .bool false)]) := by rfl

example : Json.parse ("\x7b\"a\": 1, \"b\"".toList) = none := by rfl

example : Json.parse ("".toList) = none := by rfl

example : Json.parse ("\x7b\"a\": 1\x7d x".toList) = none := by rfl

example : (("ab".toList)) = ['a', 'b'] := rfl

/-- One left-to-right pass of `re.sub(r',\s*C', 'C', s)` for a closing
character `C`: at each `','`, if the next non-whitespace character is `C`,
the comma and the whitespace are deleted; scanning resumes after the match
(no rescan of replaced text), exactly as `re.sub` does.  Fuel-recursive;
fuel `t.length` always suffices. -/
def subCommaClose (close : Char) : Nat → List Char → List Char
  | _, [] => []
  | 0, t => t
  | fuel + 1, c :: cs =>
    if c = ',' then
      match cs.dropWhile isPyWs with
      | d :: rest =>
        if d = close then close :: subCommaClose close fuel rest
        else ',' :: subCommaClose close fuel cs
      | [] => ',' :: subCommaClose close fuel cs
    else c :: subCommaClose close fuel cs

/-- The source's two repair substitutions (src/utils/llm_handler.py lines
120-122): remove trailing commas before `}`, then before `]`. -/
def removeTrailingCommas (t : List Char) : List Char :=
  subCommaClose ']' t.length (subCommaClose '}' t.length t)

/-- Index of the first occurrence of `c` in `t` (Python `str.find` when it
succeeds; `none` stands for `-1`). -/
def idxOfChar (c : Char) : List Char → Option Nat
  | [] => none
  | d :: t =>
    if d = c then some 0
    else (idxOfChar c t).map (· + 1)

/-- Index of the last occurrence of `c` in `t` (Python `str.rfind`). -/
def lastIdxOfChar (c : Char) (t : List Char) : Option Nat :=
  (idxOfChar c t.reverse).map (fun i => t.length - 1 - i)

/-- The source's brace-slicing repair (src/utils/llm_handler.py lines
124-130): if a `'{'` occurs before a `'}'`, keep only the span from the
first `'{'` to the last `'}'`; otherwise leave the text unchanged. -/
def sliceBraces (t : List Char) : List Char :=
  match idxOfChar '{' t, lastIdxOfChar '}' t with
  | some i, some j =>
    if i < j then (t.drop i).take (j + 1 - i) else t
  | _, _ => t

/-- The full repair applied when the first parse fails. -/
def cleanJson (t : List Char) : List Char :=
  sliceBraces (removeTrailingCommas t)

example : removeTrailingCommas ("\x7b\"a\": 1,\x7d".toList) = ("\x7b\"a\": 1\x7d".toList) := by decide

example : removeTrailingCommas ("[1, 2, ]".toList) = ("[1, 2]".toList) := by decide

example : sliceBraces ("prose \x7b\"a\": 1\x7d more".toList) = ("\x7b\"a\": 1\x7d".toList) := by decide

/-- Outcome classification of one `generate_json_response` call, mirroring
the distinct logging/branch structure of the source: parsed without
cleaning (line 115), parsed with cleaning (line 133), JSON parse failure
(lines 136-152, which logs the raw response length), or no/empty response
(lines 153-155). -/
inductive RespEvent where
  | parsedClean
  | parsedRepaired
  | parseError (rawLen : Nat)
  | noResponse
  deriving DecidableEq

/-- Model of `LLMHandler.generate_json_response` (src/utils/llm_handler.py lines
76-155), given the text returned by `generate_response` (`none` models a
provider failure).  Returns the parsed value (`none` on any failure) paired
with the branch classification. -/
def generate_json_response_full (response : Option (List Char)) :
    Option Json × RespEvent :=
  match response with
  | none => (none, .noResponse)
  | some r =>
    if r.isEmpty then (none, .noResponse)
    else
      let js := extractJson r
      match Json.parse js with
      | some v => (some v, .parsedClean)
      | none =>
        match Json.parse (cleanJson js) with
        | some v => (some v, .parsedRepaired)
        | none => (none, .parseError r.length)

/-- The value returned to the caller of `generate_json_response`. -/
def generate_json_response (response : Option (List Char)) : Option Json :=
  (generate_json_response_full response).1

/-- The branch taken by `generate_json_response`. -/
def generate_json_response_event (response : Option (List Char)) : RespEvent :=
  (generate_json_response_full response).2

example : generate_json_response (some ("```json\n\x7b\"a\": 1\x7d\n```".toList)) =
    some (.obj [(("a".toList), .num 1)]) := by rfl

example : generate_json_response (some ("\x7b\"a\": 1,\x7d".toList)) =
    some (.obj [(("a".toList), .num 1)]) := by rfl

example : generate_json_response_event (some ("\x7b\"a\": 1,\x7d".toList)) = .parsedRepaired := by rfl

example : generate_json_response (some ("\x7b\"a\": 1, \"b\"".toList)) = none := by rfl

/-- Model of `calculate_days_between` (src/utils/helpers.py lines 11-22).  Dates are
modelled by their proleptic-Gregorian ordinals, so Python's
`(end_date - start_date).days` is exactly `end_date - start_date`. -/
def calculate_days_between (start_date end_date : Int) : Int :=
  (end_date - start_date) + 1

/-- The `max_tokens` computed by `LLMHandler.generate_itinerary`
(src/utils/llm_handler.py lines 295-298). -/
def itinerary_max_tokens (num_days : Int) : Int :=
  let estimated_tokens := max 8000 (num_days * 600)
  min 16000 estimated_tokens

/-- A row of the `trips` table, restricted to the columns the duplicate
check and the insert touch.  `destination_state` is `none` for SQL `NULL`. -/
structure Trip where
  user_id : Nat
  destination_city : List Char
  destination_state : Option (List Char)
  destination_country : List Char
  start_date : Int
  end_date : Int
  budget : ℚ
  num_people : Int

/-- Python truthiness of the optional `state` argument (`if state:`):
true exactly for a non-empty string. -/
def stateTruthy : Option (List Char) → Bool
  | none => false
  | some s => !s.isEmpty

/-- The `WHERE` clause of the duplicate-check query in
`ItineraryAgent._check_duplicate_trip` (src/agents/itinerary_agent.py lines
179-196), evaluated on one stored row: same user, city, country,
`DATEDIFF(end_date, start_date) + 1 = num_days`, stored budget `BETWEEN`
`bmin` and `bmax` (closed interval), same `num_people`; and if the candidate
state is truthy, equal stored state, otherwise stored state `NULL` or
empty.  SQL string comparison is modelled as exact equality (the claims
only exercise exactly matching attributes). -/
def trip_matches (uid : Nat) (city : List Char) (state : Option (List Char))
    (country : List Char) (num_days : Int) (bmin bmax : ℚ) (num_people : Int)
    (t : Trip) : Bool :=
  decide (t.user_id = uid) &&
  decide (t.destination_city = city) &&
  decide (t.destination_country = country) &&
  decide ((t.end_date - t.start_date) + 1 = num_days) &&
  decide (bmin ≤ t.budget) &&
  decide (t.budget ≤ bmax) &&
  decide (t.num_people = num_people) &&
  (if stateTruthy state then
    decide (t.destination_state = state)
  else
    decide (t.destination_state = none) || decide (t.destination_state = some []))

/-- Model of `ItineraryAgent._check_duplicate_trip` (src/agents/itinerary_agent.py
lines 160-203).  `lookup` is the outcome of `db.execute_query`: the rows of
the `trips` table when the query succeeds (the `WHERE` filter is applied
here), or `.error` when it raises — in which case the `except` branch
returns `False`.  The source computes `budget_min = budget * 0.9` and
`budget_max = budget * 1.1` from the candidate budget. -/
def check_duplicate_trip (lookup : Except (List Char) (List Trip))
    (uid : Nat) (city : List Char) (state : Option (List Char))
    (country : List Char) (num_days : Int) (budget : ℚ) (num_people : Int) :
    Bool :=
  match lookup with
  | .error _ => false
  | .ok rows =>
    let budget_min := budget * (9 / 10)
    let budget_max := budget * (11 / 10)
    decide (0 < (rows.filter
      (trip_matches uid city state country num_days budget_min budget_max num_people)).length)

/-- One activity entry of a generated day, restricted to the fields
`_add_map_links_to_itinerary` touches. -/
structure Activity where
  location : List Char
  maps_link : Option (List Char)

/-- One meal entry of a generated day. -/
structure Meal where
  restaurant : List Char
  maps_link : Option (List Char)

/-- One day of a generated itinerary, restricted to the fields the agent
touches. -/
structure DayPlan where
  activities : List Activity
  meals : List Meal

/-- The itinerary structure returned by the LLM, restricted to the field
the agent reads and rewrites. -/
structure ItinData where
  daily_itinerary : List DayPlan

/-- Model of `ItineraryAgent._add_map_links_to_itinerary` (src/agents/itinerary_agent.py
lines 122-158): for every activity with a truthy location and every meal
with a truthy restaurant, attach the maps link for the location formatted as
name, city, country (comma-separated).  `maps` models
`maps_handler.get_google_maps_link`. -/
def add_map_links_to_itinerary (maps : List Char → List Char)
    (city country : List Char) (daily_itinerary : List DayPlan) : List DayPlan :=
  daily_itinerary.map (fun day =>
    { activities := day.activities.map (fun a =>
        if !a.location.isEmpty then
          { a with maps_link := some (maps (a.location ++ (", ".toList) ++ city ++ (", ".toList) ++ country)) }
        else a),
      meals := day.meals.map (fun m =>
        if !m.restaurant.isEmpty then
          { m with maps_link := some (maps (m.restaurant ++ (", ".toList) ++ city ++ (", ".toList) ++ country)) }
        else m) })

/-- Python truthiness of the optional `user_id` argument (`if user_id:`). -/
def uidTruthy : Option Nat → Bool
  | none => false
  | some u => decide (u ≠ 0)

/-- The dictionary returned by `ItineraryAgent.generate_itinerary`,
restricted to the fields the claims are about: the (map-link-enriched)
generated content, the attached `trip_id`, and the metadata day count. -/
structure GenResult where
  data : ItinData
  trip_id : Option Nat
  num_days : Int

/-- Model of `ItineraryAgent.generate_itinerary` (src/agents/itinerary_agent.py lines
24-120).  External collaborators are passed in: `lookup` is the duplicate
query's outcome, `insertRes` the outcome of the `INSERT` of
`_save_trip_to_db` (`.ok id` means the row was stored and
`get_last_insert_id` returned `id`; `.error` means the insert raised, which
`_save_trip_to_db` catches, returning `None`), and `llm` the value returned
by `LLMHandler.generate_itinerary`.  Returns the result dictionary (`none`
when the LLM returned `None`) together with the list of rows inserted into
the `trips` table by the call. -/
def agent_generate_itinerary (lookup : Except (List Char) (List Trip))
    (insertRes : Except (List Char) Nat) (llm : Option ItinData)
    (maps : List Char → List Char) (user_id : Option Nat)
    (city : List Char) (state : Option (List Char)) (country : List Char)
    (start_date end_date : Int) (budget : ℚ) (num_people : Int) :
    Option GenResult × List Trip :=
  let num_days := calculate_days_between start_date end_date
  let uid1 : Option Nat :=
    if uidTruthy user_id then
      if check_duplicate_trip lookup (user_id.getD 0) city state country num_days budget num_people then
        none
      else user_id
    else user_id
  match llm with
  | none => (none, [])
  | some itinerary_data =>
    let data' : ItinData :=
      { daily_itinerary :=
          add_map_links_to_itinerary maps city country itinerary_data.daily_itinerary }
    let saved : Option Nat × List Trip :=
      if uidTruthy uid1 then
        match insertRes with
        | .ok id =>
          (some id,
           [{ user_id := uid1.getD 0, destination_city := city,
              destination_state := state, destination_country := country,
              start_date := start_date, end_date := end_date,
              budget := budget, num_people := num_people }])
        | .error _ => (none, [])
      else (none, [])
    (some { data := data', trip_id := saved.1, num_days := num_days }, saved.2)

example : extractJson ("```json\n\x7b\"a\": 1\x7d\n```".toList) = ("\x7b\"a\": 1\x7d".toList) := by decide

example : extractJson ("hello ```\x7b\"a\": 1\x7d``` bye".toList) = ("\x7b\"a\": 1\x7d".toList) := by decide

example : extractJson ("  \x7b\"a\": 1\x7d ".toList) = ("\x7b\"a\": 1\x7d".toList) := by decide

/-! ## Lemmas about first-occurrence splitting -/

/-- A successful `breakOn` decomposes the text around the separator. -/
theorem breakOn_decomp {sep t p q : List Char}
    (h : breakOn sep t = some (p, q)) : t = p ++ sep ++ q := by
  induction t generalizing p q with
  | nil => simp [breakOn] at h
  | cons c cs ih =>
    rw [breakOn] at h
    by_cases hp : sep.isPrefixOf (c :: cs)
    · rw [if_pos hp] at h
      simp only [Option.some.injEq, Prod.mk.injEq] at h
      obtain ⟨hp1, hq1⟩ := h
      obtain ⟨u, hu⟩ : sep <+: (c :: cs) := by rwa [ List.isPrefixOf_iff_prefix] at hp
      subst hp1
      rw [← hq1, ← hu, List.nil_append, List.drop_left]
    · rw [if_neg hp] at h
      cases hb : breakOn sep cs with
      | none => rw [hb] at h; exact absurd h (by simp)
      | some pq =>
        obtain ⟨p', q'⟩ := pq
        rw [hb] at h
        simp only [Option.some.injEq, Prod.mk.injEq] at h
        obtain ⟨hp1, hq1⟩ := h
        have hcs := ih hb
        rw [← hp1, ← hq1, List.cons_append, List.cons_append, ← hcs]

/-- The text before the first occurrence of the separator contains no
occurrence of it. -/
theorem breakOn_fst_none {sep t p q : List Char}
    (h : breakOn sep t = some (p, q)) : breakOn sep p = none := by
  induction t generalizing p q with
  | nil => simp [breakOn] at h
  | cons c cs ih =>
    rw [breakOn] at h
    by_cases hp : sep.isPrefixOf (c :: cs)
    · rw [if_pos hp] at h
      simp only [Option.some.injEq, Prod.mk.injEq] at h
      rw [← h.1]
      rfl
    · rw [if_neg hp] at h
      cases hb : breakOn sep cs with
      | none => rw [hb] at h; exact absurd h (by simp)
      | some pq =>
        obtain ⟨p', q'⟩ := pq
        rw [hb] at h
        simp only [Option.some.injEq, Prod.mk.injEq] at h
        rw [← h.1, breakOn]
        have hnp : ¬ sep.isPrefixOf (c :: p') := by
          intro hyes
          apply hp
          rw [ List.isPrefixOf_iff_prefix] at hyes ⊢
          refine hyes.trans ?_
          have : p' <+: cs := ⟨sep ++ q', by rw [← List.append_assoc, breakOn_decomp hb]⟩
          obtain ⟨u, hu⟩ := this
          exact ⟨u, by rw [List.cons_append, hu]⟩
        rw [if_neg hnp, ih hb]

/-- A text of the shape `x ++ sep ++ y` contains `sep` (for non-empty
`sep`). -/
theorem breakOn_append_isSome (sep x y : List Char) (hsep : sep ≠ []) :
    (breakOn sep (x ++ sep ++ y)).isSome = true := by
  induction x with
  | nil =>
    obtain ⟨s, ss, rfl⟩ : ∃ s ss, sep = s :: ss := by
      cases sep with
      | nil => exact absurd rfl hsep
      | cons s ss => exact ⟨s, ss, rfl⟩
    rw [List.nil_append, List.cons_append, breakOn]
    have hpre : (s :: ss).isPrefixOf (s :: (ss ++ y)) := by
      rw [ List.isPrefixOf_iff_prefix]
      exact ⟨y, by rw [List.cons_append]⟩
    rw [if_pos hpre]
    rfl
  | cons d x' ih =>
    rw [List.cons_append, List.cons_append, breakOn]
    by_cases hp : sep.isPrefixOf (d :: (x' ++ sep ++ y))
    · rw [if_pos hp]
      rfl
    · rw [if_neg hp]
      cases hb : breakOn sep (x' ++ sep ++ y) with
      | none => rw [hb] at ih; exact absurd ih (by simp)
      | some pq => rfl

/-- Unfolding `splitOnFuel` when the text has no occurrence of the
separator: any fuel yields the singleton chunk. -/
theorem splitOnFuel_none (sep : List Char) (n : Nat) (t : List Char)
    (h : breakOn sep t = none) : splitOnFuel sep n t = [t] := by
  cases n with
  | zero => rfl
  | succ m => rw [splitOnFuel, h]

/-- A JSON-tagged fence occurrence is in particular a plain fence
occurrence. -/
theorem containsSub_fence_of_fenceJson (t : List Char)
    (h : containsSub t fenceJson = true) : containsSub t fence = true := by
  rw [containsSub] at h
  cases hb : breakOn fenceJson t with
  | none => rw [hb] at h; simp at h
  | some pq =>
    obtain ⟨p, q⟩ := pq
    have hd := breakOn_decomp hb
    have hfj : fenceJson = fence ++ ("json".toList) := by decide
    have : t = p ++ fence ++ (("json".toList) ++ q) := by
      rw [hd, hfj]
      simp [List.append_assoc]
    rw [containsSub, this]
    exact breakOn_append_isSome fence p (("json".toList) ++ q) (by decide)

/-! ## Claim theorems -/

/-- C7: for every `num_days`, the `max_tokens` requested for itinerary
generation equals `min(16000, max(8000, num_days * 600))`; in particular
`num_days = 1` yields 8000, `num_days = 12` yields 8000, and
`num_days = 30` yields 16000. -/
theorem itinerary_token_budget :
    (∀ num_days : Int,
      itinerary_max_tokens num_days = min 16000 (max 8000 (num_days * 600))) ∧
    itinerary_max_tokens 1 = 8000 ∧
    itinerary_max_tokens 12 = 8000 ∧
    itinerary_max_tokens 30 = 16000 :=
  ⟨fun _ => rfl, by decide, by decide, by decide⟩

/-- C8: for every pair of dates (as day ordinals),
`calculate_days_between start end = (end - start) + 1`, inclusive of both
endpoints; for `start = end` the result is exactly 1, and for `end < start`
the result is at most 0. -/
theorem trip_length_computation (s e : Int) :
    calculate_days_between s e = (e - s) + 1 ∧
    (s = e → calculate_days_between s e = 1) ∧
    (e < s → calculate_days_between s e ≤ 0) := by
  refine ⟨rfl, ?_, ?_⟩
  · rintro rfl
    simp [calculate_days_between]
  · intro h
    simp only [calculate_days_between]
    omega

/-- Witness for C8 at concrete dates: a 3-day span, a one-day trip, and a
reversed range. -/
theorem trip_length_computation_witness :
    calculate_days_between 738000 738002 = (738002 - 738000) + 1 ∧
    calculate_days_between 738000 738000 = 1 ∧
    calculate_days_between 738002 738000 ≤ 0 :=
  ⟨(trip_length_computation 738000 738002).1,
   (trip_length_computation 738000 738000).2.1 rfl,
   (trip_length_computation 738002 738000).2.2 (by decide)⟩

/-- C10: an empty-string provider text is treated by
`generate_json_response` identically to a provider failure (`none` input):
the returned value is `none` and the branch taken is the no-response branch
(lines 153-155), never the parse-error branch and never a parsed
structure. -/
theorem empty_response_like_provider_failure :
    generate_json_response (some []) = none ∧
    generate_json_response none = none ∧
    generate_json_response_event (some []) = .noResponse ∧
    generate_json_response_event none = .noResponse :=
  ⟨rfl, rfl, rfl, rfl⟩

/-- C3: for every non-empty response text whose extracted string (fenced
content, or the trimmed whole text) parses as valid JSON,
`generate_json_response` returns exactly that parse and takes the
first-success branch — no trailing-comma removal and no brace-slicing is
applied. -/
theorem first_success_normalization (r : List Char) (v : Json)
    (hne : r ≠ []) (hparse : Json.parse (extractJson r) = some v) :
    generate_json_response (some r) = some v ∧
    generate_json_response_event (some r) = .parsedClean := by
  have hempty : r.isEmpty = false := by
    cases r with
    | nil => exact absurd rfl hne
    | cons a t => rfl
  constructor <;>
    simp [generate_json_response, generate_json_response_event,
      generate_json_response_full, hempty, hparse]

/-- Witness for C3: a fenced valid JSON object is returned exactly as its
standard parse, on the first-success branch. -/
theorem first_success_normalization_witness :
    generate_json_response (some ("```json\n\x7b\"a\": 1\x7d\n```".toList)) =
      some (.obj [(("a".toList), .num 1)]) ∧
    generate_json_response_event (some ("```json\n\x7b\"a\": 1\x7d\n```".toList)) =
      .parsedClean :=
  first_success_normalization _ _ (by decide) (by rfl)

/-- C5: for every non-empty response text that fails to parse both as-is
and after the two-step repair, `generate_json_response` returns `none` —
never a partial structure — and takes the parse-error branch, which logs
the original text length. -/
theorem normalization_failure_total (r : List Char)
    (hne : r ≠ [])
    (h1 : Json.parse (extractJson r) = none)
    (h2 : Json.parse (cleanJson (extractJson r)) = none) :
    generate_json_response (some r) = none ∧
    generate_json_response_event (some r) = .parseError r.length := by
  have hempty : r.isEmpty = false := by
    cases r with
    | nil => exact absurd rfl hne
    | cons a t => rfl
  constructor <;>
    simp [generate_json_response, generate_json_response_event,
      generate_json_response_full, hempty, h1, h2]

/-- Witness for C5: JSON truncated mid-object is rejected outright, with
the raw length reported. -/
theorem normalization_failure_total_witness :
    generate_json_response (some ("\x7b\"a\": 1, \"b\"".toList)) = none ∧
    generate_json_response_event (some ("\x7b\"a\": 1, \"b\"".toList)) =
      .parseError (("\x7b\"a\": 1, \"b\"".toList).length) :=
  normalization_failure_total _ (by decide) (by rfl) (by rfl)

/-- C4: when the first parse of the extracted text fails, the repair applied
is exactly trailing-comma removal followed by first-brace-to-last-brace
slicing (first conjunct); consequently, for every text that is valid JSON
except for trailing commas — the comma-free repair parses and the
brace-slicing leaves it unchanged — `generate_json_response` succeeds with
the same structure as parsing the comma-free equivalent (second
conjunct). -/
theorem trailing_comma_repair :
    (∀ r : List Char, r ≠ [] →
      Json.parse (extractJson r) = none →
      generate_json_response (some r) =
        Json.parse (sliceBraces (removeTrailingCommas (extractJson r)))) ∧
    (∀ (r : List Char) (v : Json), r ≠ [] →
      Json.parse (extractJson r) = none →
      sliceBraces (removeTrailingCommas (extractJson r)) =
        removeTrailingCommas (extractJson r) →
      Json.parse (removeTrailingCommas (extractJson r)) = some v →
      generate_json_response (some r) = some v) := by
  have main : ∀ r : List Char, r ≠ [] →
      Json.parse (extractJson r) = none →
      generate_json_response (some r) =
        Json.parse (sliceBraces (removeTrailingCommas (extractJson r))) := by
    intro r hne h1
    have hempty : r.isEmpty = false := by
      cases r with
      | nil => exact absurd rfl hne
      | cons a t => rfl
    simp only [generate_json_response, generate_json_response_full, hempty,
      Bool.false_eq_true, if_false, h1, cleanJson]
    cases Json.parse (sliceBraces (removeTrailingCommas (extractJson r))) <;> rfl
  refine ⟨main, ?_⟩
  intro r v hne h1 hslice h2
  rw [main r hne h1, hslice, h2]

/-- Witness for C4: an object with one trailing comma is repaired and
parses to the same structure as its comma-free equivalent. -/
theorem trailing_comma_repair_witness :
    generate_json_response (some ("\x7b\"a\": 1,\x7d".toList)) =
      some (.obj [(("a".toList), .num 1)]) :=
  trailing_comma_repair.2 _ _ (by decide) (by rfl) (by decide) (by rfl)

/-- C6: fence-extraction precedence.  First conjunct: when the text has a
(single) JSON-tagged fence followed by a closing fence, extraction yields
exactly the stripped content between them, whatever prose surrounds the
block.  Second conjunct: when no JSON-tagged fence is present but an
untagged fenced block is, extraction yields the stripped content between
the first pair of fence markers.  Third conjunct: with no fence at all, the
whole text is used, trimmed of surrounding whitespace. -/
theorem fence_extraction_precedence :
    (∀ t a r b c : List Char,
      breakOn fenceJson t = some (a, r) →
      breakOn fenceJson r = none →
      breakOn fence r = some (b, c) →
      extractJson t = pyStrip b) ∧
    (∀ t a r b c : List Char,
      containsSub t fenceJson = false →
      breakOn fence t = some (a, r) →
      breakOn fence r = some (b, c) →
      extractJson t = pyStrip b) ∧
    (∀ t : List Char,
      containsSub t fence = false → extractJson t = pyStrip t) := by
  refine ⟨?_, ?_, ?_⟩
  · intro t a r b c h1 h2 h3
    have hct : containsSub t fenceJson = true := by rw [containsSub, h1]; rfl
    have e1 : pySplit fenceJson t = a :: splitOnFuel fenceJson t.length r := by
      rw [pySplit, splitOnFuel, h1]
    have e2 : splitOnFuel fenceJson t.length r = [r] :=
      splitOnFuel_none _ _ _ h2
    have e3 : pySplit fence r = b :: splitOnFuel fence r.length c := by
      rw [pySplit, splitOnFuel, h3]
    simp [extractJson, hct, e1, e2, e3]
  · intro t a r b c h0 h2 h3
    have hcf : containsSub t fence = true := by rw [containsSub, h2]; rfl
    have hlen : t.length = a.length + fence.length + r.length := by
      rw [breakOn_decomp h2]
      simp [List.length_append]
      omega
    obtain ⟨m, hm⟩ : ∃ m, t.length = m + 1 := by
      refine ⟨t.length - 1, ?_⟩
      have : fence.length = 3 := by decide
      omega
    have e1 : pySplit fence t = a :: splitOnFuel fence t.length r := by
      rw [pySplit, splitOnFuel, h2]
    have e2 : splitOnFuel fence t.length r = b :: splitOnFuel fence m c := by
      rw [hm, splitOnFuel, h3]
    have e3 : pySplit fence b = [b] :=
      splitOnFuel_none _ _ _ (breakOn_fst_none h3)
    simp [extractJson, h0, hcf, e1, e2, e3]
  · intro t h
    have hj : containsSub t fenceJson = false := by
      cases hc : containsSub t fenceJson with
      | false => rfl
      | true => exact absurd (containsSub_fence_of_fenceJson t hc) (by rw [h]; simp)
    simp [extractJson, hj, h]

/-- Witness for C6: a tagged fenced block surrounded by prose, an untagged
fenced block surrounded by prose, and a bare text, each extracted as the
claim states. -/
theorem fence_extraction_precedence_witness :
    extractJson ("prose ```json \x7b\"a\": 1\x7d ``` more".toList) =
      pyStrip (" \x7b\"a\": 1\x7d ".toList) ∧
    extractJson ("hey ```\x7b\"b\": 2\x7d``` yo".toList) = pyStrip ("\x7b\"b\": 2\x7d".toList) ∧
    extractJson ("  \x7b\"c\": 3\x7d ".toList) = pyStrip ("  \x7b\"c\": 3\x7d ".toList) :=
  ⟨fence_extraction_precedence.1 _ ("prose ".toList) (" \x7b\"a\": 1\x7d ``` more".toList)
      (" \x7b\"a\": 1\x7d ".toList) (" more".toList) (by decide) (by decide) (by decide),
   fence_extraction_precedence.2.1 _ ("hey ".toList) ("\x7b\"b\": 2\x7d``` yo".toList)
      ("\x7b\"b\": 2\x7d".toList) (" yo".toList) (by decide) (by decide) (by decide),
   fence_extraction_precedence.2.2 _ (by decide)⟩

/-- The stored trip of claim C1: budget 1000, no state, five days, two
people. -/
def storedParisTrip : Trip :=
  { user_id := 7, destination_city := ("Paris".toList), destination_state := none,
    destination_country := ("France".toList), start_date := 738000,
    end_date := 738004, budget := 1000, num_people := 2 }

/-- A `trips` table holding exactly the one stored trip of claim C1. -/
def parisLookup : Except (List Char) (List Trip) :=
  .ok [storedParisTrip]

/-- The duplicate check of claim C1: the party with the one stored trip
submits a candidate matching it in every attribute except the budget `b`. -/
def parisCheck (b : ℚ) : Bool :=
  check_duplicate_trip parisLookup 7 ("Paris".toList) none ("France".toList) 5 b 2

/-- Against the single stored trip with budget 1000, the duplicate check on
candidate budget `b` reduces to the source's `BETWEEN` test: the stored
budget 1000 must lie in the closed interval from `b * 0.9` to `b * 1.1`. -/
theorem parisCheck_eq (b : ℚ) :
    parisCheck b =
      (decide (b * (9 / 10) ≤ 1000) && decide ((1000 : ℚ) ≤ b * (11 / 10))) := by
  simp only [parisCheck, check_duplicate_trip, parisLookup, List.filter,
    trip_matches, storedParisTrip, stateTruthy]
  by_cases h1 : b * (9 / 10) ≤ (1000 : ℚ) <;>
    by_cases h2 : (1000 : ℚ) ≤ b * (11 / 10) <;>
      simp [h1, h2]

/-- C1 counterexample: the claim predicts that candidate budget 1101 is not
a duplicate of the stored budget 1000 and that candidate 900 is; the code
decides both the other way, because the `BETWEEN` interval is computed from
the candidate's budget, not the stored one. -/
theorem duplicate_budget_boundary_cex :
    parisCheck 1101 = true ∧ parisCheck 900 = false := by
  constructor <;> rw [parisCheck_eq] <;>
    simp only [Bool.and_eq_true, decide_eq_true_eq, Bool.and_eq_false_iff,
      decide_eq_false_iff_not] <;> norm_num

/-- C1 amended: the tolerance interval is centered on the candidate's
budget — the stored budget 1000 must lie in the closed interval
`[b * 0.9, b * 1.1]` — so candidates 1099, 1100 and 1101 are all flagged as
duplicates while 900 and 899 are not; the boundaries remain inclusive per
`BETWEEN`. -/
theorem duplicate_budget_tolerance_amended :
    (∀ b : ℚ, parisCheck b =
      (decide (b * (9 / 10) ≤ 1000) && decide ((1000 : ℚ) ≤ b * (11 / 10)))) ∧
    parisCheck 1099 = true ∧ parisCheck 1100 = true ∧ parisCheck 1101 = true ∧
    parisCheck 900 = false ∧ parisCheck 899 = false := by
  refine ⟨parisCheck_eq, ?_, ?_, ?_, ?_, ?_⟩ <;> rw [parisCheck_eq] <;>
    simp only [Bool.and_eq_true, decide_eq_true_eq, Bool.and_eq_false_iff,
      decide_eq_false_iff_not] <;> norm_num

/-- C2: for every itinerary-generation call by an authenticated party
(`user_id = some u`, `u ≠ 0`) whose LLM generation succeeds, if the
duplicate check matches, the returned result still carries the freshly
generated, map-link-enriched content, no row is inserted, and the attached
`trip_id` is `none` (first conjunct); if no match exists and the insert
succeeds with identifier `id`, exactly one row is inserted and the result
carries `trip_id = some id` (second conjunct); map-link enrichment
preserves the day count, so the returned content is non-empty whenever the
generation was (third conjunct). -/
theorem duplicate_suppression_frame
    (lookup : Except (List Char) (List Trip)) (insertRes : Except (List Char) Nat)
    (maps : List Char → List Char) (u : Nat) (d : ItinData)
    (city : List Char) (state : Option (List Char)) (country : List Char)
    (s e : Int) (budget : ℚ) (np : Int)
    (hu : u ≠ 0) :
    (check_duplicate_trip lookup u city state country
        (calculate_days_between s e) budget np = true →
      agent_generate_itinerary lookup insertRes (some d) maps (some u)
          city state country s e budget np =
        (some { data := ⟨add_map_links_to_itinerary maps city country d.daily_itinerary⟩,
                trip_id := none,
                num_days := calculate_days_between s e }, [])) ∧
    (∀ id : Nat, insertRes = .ok id →
      check_duplicate_trip lookup u city state country
          (calculate_days_between s e) budget np = false →
      agent_generate_itinerary lookup insertRes (some d) maps (some u)
          city state country s e budget np =
        (some { data := ⟨add_map_links_to_itinerary maps city country d.daily_itinerary⟩,
                trip_id := some id,
                num_days := calculate_days_between s e },
         [{ user_id := u, destination_city := city, destination_state := state,
            destination_country := country, start_date := s, end_date := e,
            budget := budget, num_people := np }])) ∧
    (add_map_links_to_itinerary maps city country d.daily_itinerary).length =
      d.daily_itinerary.length := by
  refine ⟨?_, ?_, ?_⟩
  · intro hdup
    simp [agent_generate_itinerary, uidTruthy, hdup, hu]
  · intro id hins hdup
    subst hins
    simp [agent_generate_itinerary, uidTruthy, hdup, hu]
  · simp [add_map_links_to_itinerary]

/-- The one-day itinerary content used by the concrete scenarios below. -/
def sampleItin : ItinData :=
  ⟨[{ activities := [{ location := ("Louvre".toList), maps_link := none }],
      meals := [{ restaurant := ("Bistro".toList), maps_link := none }] }]⟩

/-- The maps collaborator used by the concrete scenarios below. -/
def sampleMaps (loc : List Char) : List Char :=
  ("map:".toList) ++ loc

/-- Witness for C2.  Duplicate branch: the party owning the stored Paris
trip regenerates it with the same budget 1000 — content returned, nothing
inserted, `trip_id = none`.  Fresh branch: with an empty trips table the
same request inserts one row and attaches the new identifier 42. -/
theorem duplicate_suppression_frame_witness :
    agent_generate_itinerary parisLookup (.error []) (some sampleItin) sampleMaps
        (some 7) ("Paris".toList) none ("France".toList) 738000 738004 1000 2 =
      (some { data := ⟨add_map_links_to_itinerary sampleMaps ("Paris".toList)
                ("France".toList) sampleItin.daily_itinerary⟩,
              trip_id := none,
              num_days := calculate_days_between 738000 738004 }, []) ∧
    agent_generate_itinerary (.ok []) (.ok 42) (some sampleItin) sampleMaps
        (some 7) ("Paris".toList) none ("France".toList) 738000 738004 1000 2 =
      (some { data := ⟨add_map_links_to_itinerary sampleMaps ("Paris".toList)
                ("France".toList) sampleItin.daily_itinerary⟩,
              trip_id := some 42,
              num_days := calculate_days_between 738000 738004 },
       [{ user_id := 7, destination_city := ("Paris".toList),
          destination_state := none, destination_country := ("France".toList),
          start_date := 738000, end_date := 738004, budget := 1000,
          num_people := 2 }]) :=
  ⟨(duplicate_suppression_frame parisLookup (.error []) sampleMaps 7 sampleItin
      ("Paris".toList) none ("France".toList) 738000 738004 1000 2 (by decide)).1
      (by rw [show check_duplicate_trip parisLookup 7 ("Paris".toList) none
            ("France".toList) (calculate_days_between 738000 738004) 1000 2 =
            parisCheck 1000 from rfl, parisCheck_eq]
          simp only [Bool.and_eq_true, decide_eq_true_eq]
          norm_num),
   (duplicate_suppression_frame (.ok []) (.ok 42) sampleMaps 7 sampleItin
      ("Paris".toList) none ("France".toList) 738000 738004 1000 2 (by decide)).2.1
      42 rfl rfl⟩

/-- C9: if the persistence lookup inside `_check_duplicate_trip` raises,
the `except` branch makes the check return `False` (first conjunct), so in
`generate_itinerary` the candidate trip still proceeds to be persisted —
one row inserted and the fresh identifier attached (second conjunct). -/
theorem db_error_never_blocks_save
    (err : List Char) (insertId : Nat)
    (maps : List Char → List Char) (u : Nat) (d : ItinData)
    (city : List Char) (state : Option (List Char)) (country : List Char)
    (s e num_days : Int) (budget : ℚ) (np : Int)
    (hu : u ≠ 0) :
    check_duplicate_trip (.error err) u city state country num_days budget np = false ∧
    agent_generate_itinerary (.error err) (.ok insertId) (some d) maps (some u)
        city state country s e budget np =
      (some { data := ⟨add_map_links_to_itinerary maps city country d.daily_itinerary⟩,
              trip_id := some insertId,
              num_days := calculate_days_between s e },
       [{ user_id := u, destination_city := city, destination_state := state,
          destination_country := country, start_date := s, end_date := e,
          budget := budget, num_people := np }]) := by
  refine ⟨rfl, ?_⟩
  simp [agent_generate_itinerary, uidTruthy, check_duplicate_trip, hu]

/-- Witness for C9: with the lookup raising, the Paris request is still
saved and receives identifier 42. -/
theorem db_error_never_blocks_save_witness :
    check_duplicate_trip (.error ("connection lost".toList)) 7 ("Paris".toList) none
        ("France".toList) 5 1000 2 = false ∧
    agent_generate_itinerary (.error ("connection lost".toList)) (.ok 42)
        (some sampleItin) sampleMaps (some 7) ("Paris".toList) none
        ("France".toList) 738000 738004 1000 2 =
      (some { data := ⟨add_map_links_to_itinerary sampleMaps ("Paris".toList)
                ("France".toList) sampleItin.daily_itinerary⟩,
              trip_id := some 42,
              num_days := calculate_days_between 738000 738004 },
       [{ user_id := 7, destination_city := ("Paris".toList),
          destination_state := none, destination_country := ("France".toList),
          start_date := 738000, end_date := 738004, budget := 1000,
          num_people := 2 }]) :=
  db_error_never_blocks_save ("connection lost".toList) 42 sampleMaps 7 sampleItin
    ("Paris".toList) none ("France".toList) 738000 738004 5 1000 2 (by decide)

end TripPlanner
